import Mathlib

/-
Verification of the two-pass ARMv4T assembler in src/assembler.py.

The development is a shallow embedding of the assembler class.  Each Lean
definition mirrors one Python method (the doc comment names it and the
relevant source lines).  Machine-level details of CPython that matter are
modelled explicitly:

* a call to Assembler._error prints one diagnostic and terminates the
  process via sys.exit, so every pass is a function into Except AsmErr,
  where the first error short-circuits the rest of the traversal exactly
  as process termination does;
* AsmErr.diag is an error produced through _error (a formatted diagnostic
  with an exit status), AsmErr.fatal is an error printed directly before
  sys.exit (no source line), and AsmErr.crash stands for an uncaught
  Python exception (IndexError, AttributeError, ...), which also kills
  the process but prints a traceback instead of a diagnostic;
* CPython str semantics are modelled on the character list of the Lean
  string.  Python predicates such as str.isalpha are Unicode-aware; the
  ASCII fragment, which is the only one exercised by any input considered
  here, is modelled (Char.isAlpha and friends).
-/

set_option maxHeartbeats 1000000

deriving instance DecidableEq for Except

/-- One cleaned source line in the shape both passes consume (the
entries of a source unit instruction list): the 1-based line number kept
for diagnostics and the token strings of the line. -/
structure TokenLine where
  line_num : Nat
  tokens : List String
deriving DecidableEq

/-- Fatal outcome of an assembler run. -/
inductive AsmErr where
  /-- A diagnostic produced through Assembler._error (assembler.py:56-58):
  the printed message and the sys.exit status. -/
  | diag (msg : String) (code : Int)
  /-- A message printed directly (without a source line) followed by
  sys.exit, as in _parse_source_file (assembler.py:65-66, 101-102). -/
  | fatal (msg : String) (code : Int)
  /-- An uncaught Python exception terminating the interpreter. -/
  | crash (info : String)
deriving DecidableEq

/-- The mutable instance state of the Assembler object threaded through the
run: the label dictionary, the dictionary of already-parsed source units
(basename mapped to its parent file), the location counter, the current
file and the output buffer.  CPython initialises the current file to None
(assembler.py:22); that value is modelled as the string "None", which is
exactly how it would render in the diagnostic f-string. -/
structure AsmState where
  labels : List (String × Nat)
  sources : List (String × String)
  PC : Nat
  cur_file : String
  output_buffer : List Nat
deriving DecidableEq

/-- The state rebuilt from scratch by _pass_two (assembler.py:200-201):
the location counter and the output byte buffer. -/
structure P2State where
  PC : Nat
  output_buffer : List Nat
deriving DecidableEq

/-- The file system seen by the run: a map from path to the raw text lines
of the file. -/
abbrev Files := List (String × List String)

/-- Models Assembler._error (assembler.py:56-58): the printed diagnostic
is the f-string interpolation of the current file, the line number and the
message, and the process exits with the given status. -/
def errorExit (cur_file : String) (line_num : Nat) (msg : String) (code : Int) : AsmErr :=
  .diag (cur_file ++ ":" ++ toString line_num ++ ": ERROR: " ++ msg) code

/-- Models _token_is_label (assembler.py:105-106):
token.endswith(a colon) and (token[0].isalpha() or token.startswith(an
underscore)).  Python shortcircuits the conjunction, so the empty string is
not a label. -/
def token_is_label (token : String) : Bool :=
  (token.data.getLast? == some ':') &&
    (match token.data.head? with
     | some c => c.isAlpha || c == '_'
     | none => false)

/-- Models _token_is_directive (assembler.py:108-109): token.startswith(a
dot). -/
def token_is_directive (token : String) : Bool :=
  token.data.head? == some '.'

/-- Models the Python slice token[:-1] used to strip the colon from a label
token (assembler.py:132). -/
def label_text (token : String) : String :=
  ⟨token.data.dropLast⟩

/-- Decimal value of a digit list, most significant first. -/
def digitsToNat (ds : List Char) : Nat :=
  ds.foldl (fun a c => 10 * a + (c.toNat - 48)) 0

/-- Models CPython int(str) on the token alphabet the tokenizer can
produce (tokens never contain whitespace or commas): an optional sign
followed by one or more ASCII digits.  Underscore digit grouping and
non-ASCII digits, which CPython also accepts, do not occur in any input
considered here.  A none result models the ValueError branch. -/
def pyInt (s : String) : Option Int :=
  let core : List Char → Option Nat := fun ds =>
    if ds.isEmpty then none
    else if ds.all Char.isDigit then some (digitsToNat ds) else none
  match s.data with
  | '-' :: ds => (core ds).map (fun n => -(n : Int))
  | '+' :: ds => (core ds).map (fun n => (n : Int))
  | ds => (core ds).map (fun n => (n : Int))

/-- Models _calc_padding (assembler.py:111-120).  The default alignment is
4; a second token is parsed with int() and a ValueError is reported through
_error.  For a negative exponent CPython evaluates 2 ** k to a float,
driving the location counter out of the integer domain; no input
considered in this development reaches that branch and it is modelled as a
crash outcome. -/
def calc_padding (cur_file : String) (PC : Nat) (tokens : List String) (line_num : Nat) :
    Except AsmErr Nat :=
  if tokens.length == 2 then
    match pyInt (tokens.getD 1 "") with
    | none =>
      .error (errorExit cur_file line_num ("Expected integer, got " ++ tokens.getD 1 "") (-1))
    | some k =>
      if k < 0 then .error (.crash "float alignment from a negative exponent")
      else .ok ((2 ^ k.toNat - PC % 2 ^ k.toNat) % 2 ^ k.toNat)
  else
    .ok ((4 - PC % 4) % 4)

/-- Models str.strip() on the whitespace alphabet occurring in source
text. -/
def pyStrip (s : String) : String :=
  ⟨((s.data.dropWhile Char.isWhitespace).reverse.dropWhile Char.isWhitespace).reverse⟩

/-- True when the stripped line starts with the comment marker. -/
def startsWithSlashSlash (cs : List Char) : Bool :=
  match cs with
  | '/' :: '/' :: _ => true
  | _ => false

/-- Models line[:line.index of the comment marker] (assembler.py:81-82):
the text before the first occurrence of two slashes; the line is unchanged
when the marker does not occur. -/
def cutComment : List Char → List Char
  | [] => []
  | '/' :: '/' :: _ => []
  | c :: rest => c :: cutComment rest

/-- Separator class of re.split on whitespace-or-comma
(assembler.py:84). -/
def isSep (c : Char) : Bool :=
  c.isWhitespace || c == ','

/-- Splitting on separators, discarding empty fragments: the composition of
re.split and the empty-string filter at assembler.py:84. -/
def splitTokens : List Char → List Char → List String
  | [], acc => if acc.isEmpty then [] else [⟨acc.reverse⟩]
  | c :: rest, acc =>
    if isSep c then
      if acc.isEmpty then splitTokens rest []
      else ⟨acc.reverse⟩ :: splitTokens rest []
    else splitTokens rest (c :: acc)

/-- Models the per-line cleaning in _parse_source_file (assembler.py:76-84):
strip, drop blank lines and whole-line comments, cut an inline comment and
split into tokens.  A none result means the line is dropped. -/
def cleanLine (line : String) : Option (List String) :=
  let l := pyStrip line
  if l.data.isEmpty then none
  else if startsWithSlashSlash l.data then none
  else some (splitTokens (cutComment l.data) [])

/-- True when the cleaned line contributes at least one token.  On such a
line the token loop of _parse_source_file (assembler.py:86-98) rebinds the
loop variable to a fresh dict and immediately calls endswith on it inside
_token_is_label, raising an uncaught AttributeError. -/
def lineHasTokens (line : String) : Bool :=
  match cleanLine line with
  | none => false
  | some ts => !ts.isEmpty

/-- Models os.path.basename on POSIX: the text after the last slash. -/
def basename (p : String) : String :=
  ⟨(p.data.reverse.takeWhile (fun c => c != '/')).reverse⟩

/-- Models _parse_source_file (assembler.py:60-102).  An unreadable file is
the IOError branch (assembler.py:100-102).  A basename already present in
the source dictionary is reported and the process exits before any line of
the file is examined (assembler.py:64-66).  Otherwise the unit is
registered (with its parent file) and the current file switches to it; the
line loop then crashes with an AttributeError on the first token of the
first kept line, so a successfully parsed unit had no tokens on any kept
line — in particular its instruction list is empty (nothing in the source
ever appends to the instructions key; the token loop would append tokens to
a missing tokens key even if it survived the AttributeError).  In CPython
the registration happens just before the line loop; since the crash kills
the process, checking the lines before building the registered state is
observationally identical and is the order used here. -/
def parse_source_file (fs : Files) (st : AsmState) (source_file : String) :
    Except AsmErr AsmState :=
  match fs.lookup source_file with
  | none =>
    .error (.fatal ("ERROR: Unable to open source file \x27" ++ source_file ++ "\x27") 1)
  | some rawLines =>
    if (st.sources.lookup (basename source_file)).isSome then
      .error (.fatal ("ERROR: " ++ basename source_file ++ " already parsed?!") (-1))
    else if rawLines.any lineHasTokens then
      .error (.crash "AttributeError: endswith called on the dict-rebound token")
    else
      .ok { st with
        sources := (basename source_file, st.cur_file) :: st.sources,
        cur_file := basename source_file }

/-- Models a nested Assembler.assemble call (assembler.py:31-54) as made by
the .INCLUDE arm of _pass_one: _parse_source_file runs on the included
file, then _pass_one and _pass_two run over the instruction list of the
now-current unit.  That list is empty for every successfully parsed unit
(see parse_source_file), so _pass_one contributes nothing and _pass_two
reduces to its initialisation (assembler.py:200-201): the shared location
counter is reset to 0 and the output buffer is replaced by a fresh empty
one. -/
def assemble_unit (fs : Files) (st : AsmState) (source_file : String) :
    Except AsmErr AsmState :=
  match parse_source_file fs st source_file with
  | .error e => .error e
  | .ok st' => .ok { st' with PC := 0, output_buffer := [] }

/-- Models the per-line body of _pass_one from the point where token_index
is fixed (assembler.py:139-194): the label-only early exit, the directive
dispatch and the fallthrough that treats everything else as an instruction
of 4 bytes.  Length checks and slices are taken over the full token list of
the line, exactly as in the source (len(tokens), tokens[1:]). -/
def pass_one_rest (fs : Files) (st : AsmState) (ln : TokenLine) (token_index : Nat) :
    Except AsmErr AsmState :=
  if token_index = ln.tokens.length then .ok st
  else
    match ln.tokens.get? token_index with
    | none => .error (.crash "IndexError: token index out of range")
    | some t =>
      if token_is_directive t then
        match (⟨t.data.map Char.toUpper⟩ : String) with
        | ".INCLUDE" =>
          if ln.tokens.length ≠ 2 then
            .error (errorExit st.cur_file ln.line_num
              "Syntax: \x27.INCLUDE \x7bfilename\x7d\x27." (-1))
          else
            match ln.tokens.get? (token_index + 1) with
            | none => .error (.crash "IndexError: missing include operand")
            | some source_file =>
              match assemble_unit fs st source_file with
              | .error e => .error e
              | .ok st' =>
                match st'.sources.lookup st'.cur_file with
                | none => .error (.crash "KeyError: current file not registered")
                | some parent => .ok { st' with cur_file := parent }
        | ".ALIGN" | ".BALIGN" =>
          if ln.tokens.length > 2 then
            .error (errorExit st.cur_file ln.line_num
              "Syntax: \x27.ALIGN \x7bexpression\x7d\x27" (-1))
          else
            match calc_padding st.cur_file st.PC ln.tokens ln.line_num with
            | .error e => .error e
            | .ok padding => .ok { st with PC := st.PC + padding }
        | ".TEXT" | ".DATA" | ".EQU" | ".SET" | ".GLOBAL" | ".GLOBL" => .ok st
        | ".BYTE" => .ok { st with PC := st.PC + (ln.tokens.drop 1).length }
        | ".WORD" | ".INT" | ".LONG" =>
          .ok { st with PC := st.PC + 4 * (ln.tokens.drop 1).length }
        | other =>
          .error (errorExit st.cur_file ln.line_num
            ("This directive doesn\x27t exist or hasn\x27t been implemented yet: " ++ other)
            (-1))
      else .ok { st with PC := st.PC + 4 }

/-- Models one iteration of the _pass_one loop (assembler.py:126-194): the
label binding (bind to the current PC when fresh, report through _error
when already bound) followed by pass_one_rest. -/
def pass_one_line (fs : Files) (st : AsmState) (ln : TokenLine) :
    Except AsmErr AsmState :=
  match ln.tokens.head? with
  | none => .error (.crash "IndexError: line with no tokens")
  | some t0 =>
    if token_is_label t0 then
      if (st.labels.lookup (label_text t0)).isSome then
        .error (errorExit st.cur_file ln.line_num (label_text t0 ++ " already defined.") (-1))
      else
        pass_one_rest fs { st with labels := (label_text t0, st.PC) :: st.labels } ln 1
    else pass_one_rest fs st ln 0

/-- Models the _pass_one loop (assembler.py:123-194) over an instruction
list, starting from the given assembler state; sys.exit makes the first
error final. -/
def pass_one (fs : Files) (st : AsmState) : List TokenLine → Except AsmErr AsmState
  | [] => .ok st
  | ln :: rest =>
    match pass_one_line fs st ln with
    | .error e => .error e
    | .ok st' => pass_one fs st' rest

/-- Models the per-line body of the _pass_two loop (assembler.py:203-254):
the label token is stripped first, a label-only line is skipped, directive
lines dispatch on the stripped token list, and a non-directive line falls
through with no effect (there is no else branch and no instruction encoder
in the source).  The .BYTE arm (assembler.py:244-245) has an empty loop
body in the source — as written it is even a Python IndentationError — so
it emits nothing and leaves the state unchanged; the .WORD arm
(assembler.py:248-251) advances PC by 4 per operand but appends nothing to
the output buffer. -/
def pass_two_line (cur_file : String) (st : P2State) (ln : TokenLine) :
    Except AsmErr P2State :=
  match ln.tokens.head? with
  | none => .error (.crash "IndexError: line with no tokens")
  | some t0 =>
    match (if token_is_label t0 then ln.tokens.drop 1 else ln.tokens) with
    | [] => .ok st
    | d :: rest =>
      if token_is_directive d then
        match (⟨d.data.map Char.toUpper⟩ : String) with
        | ".INCLUDE" => .ok st
        | ".ALIGN" | ".BALIGN" =>
          if (d :: rest).length > 2 then
            .error (errorExit cur_file ln.line_num
              "Syntax: \x27.ALIGN \x7bexpression\x7d\x27" (-1))
          else
            match calc_padding cur_file st.PC (d :: rest) ln.line_num with
            | .error e => .error e
            | .ok padding =>
              if padding ≠ 0 then
                .ok ⟨st.PC + padding, st.output_buffer ++ List.replicate padding 0⟩
              else .ok st
        | ".TEXT" | ".DATA" | ".EQU" | ".SET" | ".GLOBAL" | ".GLOBL" => .ok st
        | ".BYTE" => .ok st
        | ".WORD" | ".INT" | ".LONG" => .ok ⟨st.PC + 4 * rest.length, st.output_buffer⟩
        | other =>
          .error (errorExit cur_file ln.line_num
            ("This directive doesn\x27t exist or hasn\x27t been implemented yet: " ++ other)
            (-1))
      else .ok st

/-- The _pass_two loop from a given rebuilt state. -/
def pass_two_go (cur_file : String) (st : P2State) : List TokenLine → Except AsmErr P2State
  | [] => .ok st
  | ln :: rest =>
    match pass_two_line cur_file st ln with
    | .error e => .error e
    | .ok st' => pass_two_go cur_file st' rest

/-- Models _pass_two (assembler.py:196-254): the location counter is reset
to 0, the output buffer is replaced by a fresh empty bytearray
(assembler.py:200-201), and the loop runs over the instruction list. -/
def pass_two (cur_file : String) (lines : List TokenLine) : Except AsmErr P2State :=
  pass_two_go cur_file ⟨0, []⟩ lines

/-- The padding formula stated by the spec for .align directives:
(align - PC mod align) mod align. -/
def specAlignPadding (alignment PC : Nat) : Nat :=
  (alignment - PC % alignment) % alignment

/-- The diagnostic shape the spec requires of every fatal error carrying a
source line: file, line, the marker ERROR and the message. -/
def diag_line_format (msg : String) : Prop :=
  ∃ f l m, msg = f ++ ":" ++ toString (l : Nat) ++ ": ERROR: " ++ m

/-- C1: the two passes do not agree on directive lines.  On the line
.word 1 Pass 1 advances PC by 4, but Pass 2 appends no bytes at all to the
output buffer (its .WORD arm only advances its own PC; the resulting pass
two state has an empty buffer), while the claim requires exactly 4 bytes
to be appended. -/
theorem c1_word_pass_disagreement :
    Except.map (fun st => st.PC)
      (pass_one [] ⟨[], [("main.s", "None")], 0, "main.s", []⟩ [⟨1, [".word", "1"]⟩]) =
      .ok 4
    ∧ pass_two "main.s" [⟨1, [".word", "1"]⟩] = .ok ⟨4, []⟩ := by
  constructor <;> decide

/-- C2: a source that assembles without error in both passes, on which the
final Pass 1 location counter is 7 while the Pass 2 output buffer is empty
(length 0): the .BYTE arm of Pass 2 emits nothing and instruction lines
have no emission branch at all. -/
theorem c2_size_invariant_broken :
    Except.map (fun st => st.PC)
      (pass_one [] ⟨[], [("main.s", "None")], 0, "main.s", []⟩
        [⟨1, [".byte", "1", "2", "3"]⟩, ⟨2, ["mov", "r0", "r1"]⟩]) = .ok 7
    ∧ pass_two "main.s" [⟨1, [".byte", "1", "2", "3"]⟩, ⟨2, ["mov", "r0", "r1"]⟩] =
        .ok ⟨0, []⟩ := by
  constructor <;> decide

/-- C3: an include does reset PC.  With b.s an empty file, Pass 1 over
.word 1 alone leaves PC = 4, but continuing with .include b.s runs the
included file through the whole pipeline, whose Pass 2 resets the shared
PC to 0; the label on the next line then binds to 0 instead of 4, so PC
after the include is not the value before it plus the included size. -/
theorem c3_include_resets_pc :
    Except.map (fun st => st.PC)
      (pass_one [("b.s", [])] ⟨[], [("main.s", "None")], 0, "main.s", []⟩
        [⟨1, [".word", "1"]⟩]) = .ok 4
    ∧ Except.map (fun st => (st.PC, st.labels.lookup "foo"))
        (pass_one [("b.s", [])] ⟨[], [("main.s", "None")], 0, "main.s", []⟩
          [⟨1, [".word", "1"]⟩, ⟨2, [".include", "b.s"]⟩, ⟨3, ["foo:"]⟩]) =
        .ok (0, some 0) := by
  constructor <;> decide

/-- C5: the data directives advance PC in Pass 1 exactly as claimed (3 for
.byte 1, 2, 3), but Pass 2 emits no bytes for them: on .byte 1, 2, 3 the
buffer stays empty (the claim requires bytes 01 02 03) and on .word 1 the
buffer stays empty as well (the claim requires 01 00 00 00). -/
theorem c5_data_emission_missing :
    Except.map (fun st => st.PC)
      (pass_one [] ⟨[], [("main.s", "None")], 0, "main.s", []⟩
        [⟨1, [".byte", "1", "2", "3"]⟩]) = .ok 3
    ∧ pass_two "main.s" [⟨1, [".byte", "1", "2", "3"]⟩] = .ok ⟨0, []⟩
    ∧ pass_two "main.s" [⟨1, [".word", "1"]⟩] = .ok ⟨4, []⟩ := by
  refine ⟨by decide, by decide, by decide⟩

/-- Helper: calc_padding on a two-token line whose second token parses to
the natural number n yields the padding formula of the spec for alignment
2 to the n. -/
theorem calc_padding_some (cf : String) (PC lnum : Nat) (a d : String) (n : Nat)
    (hd : pyInt d = some (n : Int)) :
    calc_padding cf PC [a, d] lnum = .ok (specAlignPadding (2 ^ n) PC) := by
  unfold calc_padding
  simp [hd, specAlignPadding, show ¬((n : Int) < 0) by omega]

/-- Helper: calc_padding on a one-token line uses the default alignment
4. -/
theorem calc_padding_default (cf : String) (PC lnum : Nat) (a : String) :
    calc_padding cf PC [a] lnum = .ok (specAlignPadding 4 PC) := by
  unfold calc_padding
  simp [specAlignPadding]

/-- C4 counterexample: at PC = 5 the line with tokens foo:, .align, 2 is
an .align line with integer exponent operand 2, but Pass 1 reports a fatal
syntax error instead of adding the 3 bytes of padding (the length check of
the .ALIGN arm counts the label token), while Pass 2, which strips the
label first, happily pads; so the padding is not added in both passes. -/
theorem c4_labelled_align_error :
    pass_one_line [] ⟨[], [("main.s", "None")], 5, "main.s", []⟩
        ⟨1, ["foo:", ".align", "2"]⟩ =
      .error (.diag "main.s:1: ERROR: Syntax: \x27.ALIGN \x7bexpression\x7d\x27" (-1))
    ∧ pass_two_go "main.s" ⟨5, []⟩ [⟨1, ["foo:", ".align", "2"]⟩] = .ok ⟨8, [0, 0, 0]⟩ := by
  constructor <;> decide

/-- C4 (amended): for an align line whose tokens are exactly the directive
and an operand parsing to the natural number n, or exactly the directive
(alignment exponent defaulting to 2), both passes add the padding
(2 to the n minus PC mod 2 to the n) mod 2 to the n to PC, and Pass 2
additionally appends exactly that many zero bytes to the output buffer. -/
theorem c4_align_padding
    (fs : Files) (st : AsmState) (st2 : P2State) (cf : String) (lnum : Nat)
    (a d : String) (n : Nat)
    (ha : a = ".align" ∨ a = ".balign")
    (hd : pyInt d = some (n : Int)) :
    pass_one_line fs st ⟨lnum, [a, d]⟩ =
        .ok { st with PC := st.PC + specAlignPadding (2 ^ n) st.PC }
    ∧ pass_two_line cf st2 ⟨lnum, [a, d]⟩ =
        .ok ⟨st2.PC + specAlignPadding (2 ^ n) st2.PC,
             st2.output_buffer ++ List.replicate (specAlignPadding (2 ^ n) st2.PC) 0⟩
    ∧ pass_one_line fs st ⟨lnum, [a]⟩ =
        .ok { st with PC := st.PC + specAlignPadding (2 ^ 2) st.PC }
    ∧ pass_two_line cf st2 ⟨lnum, [a]⟩ =
        .ok ⟨st2.PC + specAlignPadding (2 ^ 2) st2.PC,
             st2.output_buffer ++ List.replicate (specAlignPadding (2 ^ 2) st2.PC) 0⟩ := by
  have hsplit : ∀ (PC : Nat) (buf : List Nat) (p : Nat),
      (if p ≠ 0 then (.ok ⟨PC + p, buf ++ List.replicate p 0⟩ : Except AsmErr P2State)
       else .ok ⟨PC, buf⟩) = .ok ⟨PC + p, buf ++ List.replicate p 0⟩ := by
    intro PC buf p
    by_cases hp : p = 0 <;> simp [hp]
  rcases ha with h | h <;> subst h <;>
    refine ⟨?_, ?_, ?_, ?_⟩ <;>
    simp [pass_one_line, pass_two_line, pass_one_rest,
      show token_is_label ".align" = false from by decide,
      show token_is_label ".balign" = false from by decide,
      show token_is_directive ".align" = true from by decide,
      show token_is_directive ".balign" = true from by decide,
      calc_padding_some cf _ lnum _ d n hd,
      calc_padding_default, hsplit] <;>
    rw [calc_padding_some st.cur_file st.PC lnum _ d n hd]

/-- C4 witness: at PC = 5 the line .align 2 adds 3 bytes of padding in
Pass 1 (PC becomes 8) and appends exactly 3 zero bytes in Pass 2. -/
theorem c4_align_padding_witness :
    pass_one_line [] ⟨[], [], 5, "main.s", []⟩ ⟨1, [".align", "2"]⟩ =
      .ok ⟨[], [], 8, "main.s", []⟩
    ∧ pass_two_line "main.s" ⟨5, [7]⟩ ⟨1, [".align", "2"]⟩ = .ok ⟨8, [7, 0, 0, 0]⟩ := by
  have h := c4_align_padding [] ⟨[], [], 5, "main.s", []⟩ ⟨5, [7]⟩ "main.s" 1
    ".align" "2" 2 (Or.inl rfl) (by decide)
  exact ⟨h.1, h.2.1⟩

/-- Helper: any line whose first token is neither a label nor a directive
is treated by _pass_one as an instruction line and advances PC by exactly 4
(assembler.py:193-194). -/
theorem pass_one_line_instr (fs : Files) (st : AsmState) (ln : TokenLine) (t0 : String)
    (h : ln.tokens.head? = some t0) (hl : token_is_label t0 = false)
    (hd : token_is_directive t0 = false) :
    pass_one_line fs st ln = .ok { st with PC := st.PC + 4 } := by
  obtain ⟨lnum, toks⟩ := ln
  cases toks with
  | nil => simp at h
  | cons a ts =>
    simp only [List.head?] at h
    injection h with h
    subst h
    simp [pass_one_line, hl, pass_one_rest, hd]

/-- C7 counterexample: the line 1abc: is not reported at all; Pass 1
silently treats it as an instruction line, advancing PC from 0 to 4 and
binding no label. -/
theorem c7_invalid_label_silent :
    pass_one_line [] ⟨[], [("main.s", "None")], 0, "main.s", []⟩ ⟨1, ["1abc:"]⟩ =
      .ok ⟨[], [("main.s", "None")], 4, "main.s", []⟩ := by decide

/-- C7 (amended): a first token that ends with the colon but whose first
character is neither alphabetic, nor the underscore, nor the dot is not
classified as a label (and not as a directive); the line is silently
treated as an instruction line and Pass 1 advances PC by 4 with no
error. -/
theorem c7_invalid_label_treated_as_instruction
    (fs : Files) (st : AsmState) (ln : TokenLine) (t0 : String)
    (h : ln.tokens.head? = some t0)
    (hcolon : t0.data.getLast? = some ':')
    (hfirst : ∀ c, t0.data.head? = some c → c.isAlpha = false ∧ c ≠ '_' ∧ c ≠ '.') :
    token_is_label t0 = false
    ∧ pass_one_line fs st ln = .ok { st with PC := st.PC + 4 } := by
  have hne : t0.data ≠ [] := by
    intro hnil
    rw [hnil] at hcolon
    simp at hcolon
  obtain ⟨c, cs, hdata⟩ : ∃ c cs, t0.data = c :: cs := by
    cases hd : t0.data with
    | nil => exact absurd hd hne
    | cons c cs => exact ⟨c, cs, rfl⟩
  obtain ⟨ha, hu, hdot⟩ := hfirst c (by rw [hdata]; rfl)
  have hlab : token_is_label t0 = false := by
    unfold token_is_label
    rw [hdata]
    simp [List.head?, ha, hu]
  have hdir : token_is_directive t0 = false := by
    unfold token_is_directive
    rw [hdata]
    simp [List.head?, hdot]
  exact ⟨hlab, pass_one_line_instr fs st ln t0 h hlab hdir⟩

/-- C7 witness: the amended statement applied at the concrete line
1abc:. -/
theorem c7_invalid_label_witness :
    token_is_label "1abc:" = false
    ∧ pass_one_line [] ⟨[], [], 6, "a.s", []⟩ ⟨2, ["1abc:"]⟩ =
        .ok ⟨[], [], 10, "a.s", []⟩ :=
  c7_invalid_label_treated_as_instruction [] ⟨[], [], 6, "a.s", []⟩ ⟨2, ["1abc:"]⟩
    "1abc:" rfl (by decide) (by decide)

/-- C8 counterexample: the directive .code 16 does not select any mode; it
is rejected by Pass 1 as an unimplemented directive with a fatal
diagnostic. -/
theorem c8_code_directive_rejected :
    pass_one_line [] ⟨[], [("main.s", "None")], 0, "main.s", []⟩ ⟨1, [".code", "16"]⟩ =
      .error (.diag
        "main.s:1: ERROR: This directive doesn\x27t exist or hasn\x27t been implemented yet: .CODE"
        (-1)) := by decide

/-- C8 (amended): Pass 1 advances PC by exactly 4 on every non-label,
non-directive line — there is no narrow mode and no instruction-width
state at all — and any .code directive line is a fatal
unimplemented-directive error rather than a mode switch. -/
theorem c8_no_narrow_mode :
    (∀ (fs : Files) (st : AsmState) (ln : TokenLine) (t0 : String),
        ln.tokens.head? = some t0 → token_is_label t0 = false →
        token_is_directive t0 = false →
        pass_one_line fs st ln = .ok { st with PC := st.PC + 4 })
    ∧ (∀ (fs : Files) (st : AsmState) (lnum : Nat) (rest : List String),
        pass_one_line fs st ⟨lnum, ".code" :: rest⟩ =
          .error (errorExit st.cur_file lnum
            ("This directive doesn\x27t exist or hasn\x27t been implemented yet: .CODE")
            (-1))) := by
  refine ⟨fun fs st ln t0 h hl hd => pass_one_line_instr fs st ln t0 h hl hd, ?_⟩
  intro fs st lnum rest
  rfl

/-- C8 witness: a mnemonic line advances PC by 4 from a concrete state,
and a concrete .code 32 line is a fatal error. -/
theorem c8_no_narrow_mode_witness :
    pass_one_line [] ⟨[], [], 0, "main.s", []⟩ ⟨1, ["mov", "r0", "r1"]⟩ =
      .ok ⟨[], [], 4, "main.s", []⟩
    ∧ pass_one_line [] ⟨[], [], 7, "a.s", []⟩ ⟨2, [".code", "32"]⟩ =
        .error (errorExit "a.s" 2
          ("This directive doesn\x27t exist or hasn\x27t been implemented yet: .CODE")
          (-1)) :=
  ⟨c8_no_narrow_mode.1 [] ⟨[], [], 0, "main.s", []⟩ ⟨1, ["mov", "r0", "r1"]⟩ "mov"
      rfl (by decide) (by decide),
    c8_no_narrow_mode.2 [] ⟨[], [], 7, "a.s", []⟩ 2 ["32"]⟩

/-- Helper: a successful parse never changes the label table. -/
theorem parse_source_file_labels (fs : Files) (st : AsmState) (f : String)
    (st' : AsmState) (h : parse_source_file fs st f = .ok st') :
    st'.labels = st.labels := by
  unfold parse_source_file at h
  repeat' split at h
  all_goals try (injection h with h; subst h)
  all_goals first | rfl | simp_all

/-- Helper: a successful nested assemble never changes the label table (no
lines of the included unit survive parsing, see assemble_unit). -/
theorem assemble_unit_labels (fs : Files) (st : AsmState) (f : String)
    (st' : AsmState) (h : assemble_unit fs st f = .ok st') :
    st'.labels = st.labels := by
  unfold assemble_unit at h
  repeat' split at h
  all_goals try (injection h with h; subst h)
  all_goals try simp_all
  all_goals solve_by_elim [parse_source_file_labels]

/-- Helper: the directive and instruction arms of a Pass 1 line never
change the label table. -/
theorem pass_one_rest_labels (fs : Files) (st : AsmState) (ln : TokenLine)
    (i : Nat) (st' : AsmState) (h : pass_one_rest fs st ln i = .ok st') :
    st'.labels = st.labels := by
  unfold pass_one_rest at h
  repeat' split at h
  all_goals try (injection h with h; subst h)
  all_goals try rfl
  all_goals try simp_all
  all_goals solve_by_elim [assemble_unit_labels]

/-- Helper: a successful Pass 1 line keeps every existing label binding
(the only change it can make to the label table is to cons a name that was
not bound before). -/
theorem pass_one_line_keeps_binding (fs : Files) (st : AsmState) (ln : TokenLine)
    (st' : AsmState) (h : pass_one_line fs st ln = .ok st')
    (name : String) (v : Nat) (hb : st.labels.lookup name = some v) :
    st'.labels.lookup name = some v := by
  unfold pass_one_line at h
  split at h
  · simp at h
  · rename_i t0 heq
    split at h
    · split at h
      · simp at h
      · rename_i hfresh
        have hrest := pass_one_rest_labels fs _ ln 1 st' h
        rw [hrest]
        have hne : (name == label_text t0) = false := by
          rcases hbeq : name == label_text t0 with _ | _
          · rfl
          · exfalso
            have hname : name = label_text t0 := eq_of_beq hbeq
            rw [hname] at hb
            rw [hb] at hfresh
            simp at hfresh
        simp [List.lookup, hne]
        exact hb
    · have hrest := pass_one_rest_labels fs st ln 0 st' h
      rw [hrest]
      exact hb

/-- Helper: Pass 1 over any instruction list keeps every existing label
binding. -/
theorem pass_one_keeps_binding (fs : Files) (lines : List TokenLine) :
    ∀ (st st' : AsmState), pass_one fs st lines = .ok st' →
      ∀ (name : String) (v : Nat), st.labels.lookup name = some v →
        st'.labels.lookup name = some v := by
  induction lines with
  | nil =>
    intro st st' h name v hb
    unfold pass_one at h
    injection h with h
    subst h
    exact hb
  | cons ln rest ih =>
    intro st st' h name v hb
    unfold pass_one at h
    split at h
    · simp at h
    · rename_i stm hm
      exact ih stm st' h name v (pass_one_line_keeps_binding fs st ln stm hm name v hb)

/-- C6: a second definition of an already-bound label name is a fatal
error through _error, aborting the run with a non-zero status, whatever
the file, the PC and the rest of the state; and a successful Pass 1 never
rebinds an already-bound symbol: every existing binding survives
unchanged. -/
theorem c6_duplicate_label_fatal :
    (∀ (fs : Files) (st : AsmState) (ln : TokenLine) (t0 : String),
        ln.tokens.head? = some t0 → token_is_label t0 = true →
        (st.labels.lookup (label_text t0)).isSome = true →
        pass_one_line fs st ln =
          .error (errorExit st.cur_file ln.line_num
            (label_text t0 ++ " already defined.") (-1)))
    ∧ (∀ (fs : Files) (lines : List TokenLine) (st st' : AsmState)
        (name : String) (v : Nat),
        pass_one fs st lines = .ok st' → st.labels.lookup name = some v →
        st'.labels.lookup name = some v) := by
  constructor
  · intro fs st ln t0 h hl hdup
    unfold pass_one_line
    rw [h]
    simp [hl, hdup]
  · intro fs lines st st' name v h hb
    exact pass_one_keeps_binding fs lines st st' h name v hb

/-- C6 witness: with foo already bound at offset 0, the line foo: .word 1
in file a.s at line 3 is rejected with the duplicate diagnostic; and a run
over mov and a fresh label bar keeps the binding of foo at 0. -/
theorem c6_duplicate_label_fatal_witness :
    pass_one_line [] ⟨[("foo", 0)], [("a.s", "None")], 4, "a.s", []⟩
        ⟨3, ["foo:", ".word", "1"]⟩ =
      .error (errorExit "a.s" 3 (label_text "foo:" ++ " already defined.") (-1))
    ∧ (List.lookup "foo"
        (AsmState.labels ⟨[("bar", 4), ("foo", 0)], [("a.s", "None")], 8, "a.s", []⟩) =
        some 0) := by
  constructor
  · exact c6_duplicate_label_fatal.1 [] ⟨[("foo", 0)], [("a.s", "None")], 4, "a.s", []⟩
      ⟨3, ["foo:", ".word", "1"]⟩ "foo:" rfl (by decide) (by decide)
  · exact c6_duplicate_label_fatal.2 [] [⟨1, ["bar:", "mov", "r0"]⟩]
      ⟨[("foo", 0)], [("a.s", "None")], 4, "a.s", []⟩
      ⟨[("bar", 4), ("foo", 0)], [("a.s", "None")], 8, "a.s", []⟩
      "foo" 0 (by decide) (by decide)

/-- Helper: an error equal to one produced by _error with status -1 has
the mandated file-line diagnostic format and a non-zero exit status. -/
theorem errorExit_diag {α : Type} (cf : String) (lnum : Nat) (m msg : String) (code : Int)
    (h : (Except.error (errorExit cf lnum m (-1)) : Except AsmErr α) =
      .error (.diag msg code)) :
    diag_line_format msg ∧ code ≠ 0 := by
  unfold errorExit at h
  injection h with h
  injection h with h1 h2
  subst h1
  subst h2
  exact ⟨⟨cf, lnum, m, rfl⟩, by decide⟩

/-- Helper: every diagnostic produced by calc_padding has the mandated
file-line format and a non-zero exit status. -/
theorem calc_padding_diag (cf : String) (PC : Nat) (toks : List String) (lnum : Nat)
    (msg : String) (code : Int)
    (h : calc_padding cf PC toks lnum = .error (.diag msg code)) :
    diag_line_format msg ∧ code ≠ 0 := by
  unfold calc_padding at h
  repeat' split at h
  all_goals first
    | exact errorExit_diag _ _ _ _ _ h
    | simp at h

/-- Helper: parse_source_file never produces a diag error (its failures are
the directly-printed messages or a crash). -/
theorem parse_source_file_no_diag (fs : Files) (st : AsmState) (f : String)
    (msg : String) (code : Int) (C : Prop)
    (h : parse_source_file fs st f = .error (.diag msg code)) : C := by
  exfalso
  unfold parse_source_file at h
  repeat' split at h
  all_goals simp_all

/-- Helper: a nested assemble never produces a diag error. -/
theorem assemble_unit_no_diag (fs : Files) (st : AsmState) (f : String)
    (msg : String) (code : Int) (C : Prop)
    (h : assemble_unit fs st f = .error (.diag msg code)) : C := by
  exfalso
  unfold assemble_unit at h
  repeat' split at h
  all_goals try simp_all
  all_goals solve_by_elim [parse_source_file_no_diag]

/-- Helper: every diagnostic produced by the directive and instruction arms
of a Pass 1 line has the mandated format and a non-zero status. -/
theorem pass_one_rest_diag (fs : Files) (st : AsmState) (ln : TokenLine) (i : Nat)
    (msg : String) (code : Int)
    (h : pass_one_rest fs st ln i = .error (.diag msg code)) :
    diag_line_format msg ∧ code ≠ 0 := by
  unfold pass_one_rest at h
  repeat' split at h
  all_goals first
    | exact errorExit_diag _ _ _ _ _ h
    | (injection h with h
       subst h
       solve_by_elim [calc_padding_diag, assemble_unit_no_diag])
    | simp at h

/-- Helper: every diagnostic produced by one Pass 1 line has the mandated
format and a non-zero status. -/
theorem pass_one_line_diag (fs : Files) (st : AsmState) (ln : TokenLine)
    (msg : String) (code : Int)
    (h : pass_one_line fs st ln = .error (.diag msg code)) :
    diag_line_format msg ∧ code ≠ 0 := by
  unfold pass_one_line at h
  repeat' split at h
  all_goals first
    | exact errorExit_diag _ _ _ _ _ h
    | solve_by_elim [pass_one_rest_diag]
    | simp at h

/-- Helper: every diagnostic produced by a Pass 1 traversal has the
mandated format and a non-zero status. -/
theorem pass_one_diag (fs : Files) (lines : List TokenLine) :
    ∀ (st : AsmState) (msg : String) (code : Int),
      pass_one fs st lines = .error (.diag msg code) →
      diag_line_format msg ∧ code ≠ 0 := by
  induction lines with
  | nil =>
    intro st msg code h
    unfold pass_one at h
    simp at h
  | cons ln rest ih =>
    intro st msg code h
    unfold pass_one at h
    split at h
    · rename_i e heq
      injection h with h
      subst h
      exact pass_one_line_diag fs st ln msg code heq
    · exact ih _ msg code h

/-- Helper: every diagnostic produced by one Pass 2 line has the mandated
format and a non-zero status. -/
theorem pass_two_line_diag (cf : String) (st : P2State) (ln : TokenLine)
    (msg : String) (code : Int)
    (h : pass_two_line cf st ln = .error (.diag msg code)) :
    diag_line_format msg ∧ code ≠ 0 := by
  unfold pass_two_line at h
  repeat' split at h
  all_goals first
    | exact errorExit_diag _ _ _ _ _ h
    | (injection h with h
       subst h
       solve_by_elim [calc_padding_diag])
    | simp at h

/-- Helper: every diagnostic produced by a Pass 2 traversal has the
mandated format and a non-zero status. -/
theorem pass_two_go_diag (cf : String) (lines : List TokenLine) :
    ∀ (st : P2State) (msg : String) (code : Int),
      pass_two_go cf st lines = .error (.diag msg code) →
      diag_line_format msg ∧ code ≠ 0 := by
  induction lines with
  | nil =>
    intro st msg code h
    unfold pass_two_go at h
    simp at h
  | cons ln rest ih =>
    intro st msg code h
    unfold pass_two_go at h
    split at h
    · rename_i e heq
      injection h with h
      subst h
      exact pass_two_line_diag cf st ln msg code heq
    · exact ih _ msg code h

/-- Helper: the first Pass 1 error is final — appending further lines
cannot change it (sys.exit gives no recovery and no second
diagnostic). -/
theorem pass_one_first_error (fs : Files) (pre : List TokenLine) :
    ∀ (st : AsmState) (post : List TokenLine) (e : AsmErr),
      pass_one fs st pre = .error e → pass_one fs st (pre ++ post) = .error e := by
  induction pre with
  | nil =>
    intro st post e h
    unfold pass_one at h
    simp at h
  | cons ln rest ih =>
    intro st post e h
    rw [List.cons_append]
    rcases hpl : pass_one_line fs st ln with e' | st'
    · unfold pass_one at h ⊢
      simp only [hpl] at h ⊢
      exact h
    · unfold pass_one at h ⊢
      simp only [hpl] at h ⊢
      exact ih st' post e h

/-- Helper: the first Pass 2 error is final. -/
theorem pass_two_first_error (cf : String) (pre : List TokenLine) :
    ∀ (st : P2State) (post : List TokenLine) (e : AsmErr),
      pass_two_go cf st pre = .error e → pass_two_go cf st (pre ++ post) = .error e := by
  induction pre with
  | nil =>
    intro st post e h
    unfold pass_two_go at h
    simp at h
  | cons ln rest ih =>
    intro st post e h
    rw [List.cons_append]
    rcases hpl : pass_two_line cf st ln with e' | st'
    · unfold pass_two_go at h ⊢
      simp only [hpl] at h ⊢
      exact h
    · unfold pass_two_go at h ⊢
      simp only [hpl] at h ⊢
      exact ih st' post e h

/-- C9: every fatal error carrying a source line — every error raised
through _error in either pass — is the diagnostic
file, colon, line, colon, the ERROR marker and the message, with a
non-zero exit status; and the first error anywhere in a traversal is
final: the remaining lines of the unit are never processed, so there is no
second diagnostic and no recovery. -/
theorem c9_diagnostics :
    (∀ (fs : Files) (st : AsmState) (lines : List TokenLine) (msg : String) (code : Int),
        pass_one fs st lines = .error (.diag msg code) →
        diag_line_format msg ∧ code ≠ 0)
    ∧ (∀ (cf : String) (lines : List TokenLine) (msg : String) (code : Int),
        pass_two cf lines = .error (.diag msg code) →
        diag_line_format msg ∧ code ≠ 0)
    ∧ (∀ (fs : Files) (st : AsmState) (pre post : List TokenLine) (e : AsmErr),
        pass_one fs st pre = .error e → pass_one fs st (pre ++ post) = .error e)
    ∧ (∀ (cf : String) (st : P2State) (pre post : List TokenLine) (e : AsmErr),
        pass_two_go cf st pre = .error e → pass_two_go cf st (pre ++ post) = .error e) := by
  refine ⟨?_, ?_, ?_, ?_⟩
  · intro fs st lines msg code h
    exact pass_one_diag fs lines st msg code h
  · intro cf lines msg code h
    exact pass_two_go_diag cf lines ⟨0, []⟩ msg code h
  · intro fs st pre post e h
    exact pass_one_first_error fs pre st post e h
  · intro cf st pre post e h
    exact pass_two_first_error cf pre st post e h

/-- C9 witness: the unknown directive .foo on line 2 of main.s yields a
diagnostic in the mandated shape with exit status -1, and that first error
survives any appended rest of the file. -/
theorem c9_diagnostics_witness :
    (diag_line_format
      "main.s:2: ERROR: This directive doesn\x27t exist or hasn\x27t been implemented yet: .FOO"
      ∧ (-1 : Int) ≠ 0)
    ∧ pass_one [] ⟨[], [("main.s", "None")], 0, "main.s", []⟩
        ([⟨2, [".foo"]⟩] ++ [⟨3, [".word", "1"]⟩]) =
      .error (.diag
        "main.s:2: ERROR: This directive doesn\x27t exist or hasn\x27t been implemented yet: .FOO"
        (-1)) :=
  ⟨c9_diagnostics.1 [] ⟨[], [("main.s", "None")], 0, "main.s", []⟩ [⟨2, [".foo"]⟩]
      _ _ (by decide),
    c9_diagnostics.2.2.1 [] ⟨[], [("main.s", "None")], 0, "main.s", []⟩
      [⟨2, [".foo"]⟩] [⟨3, [".word", "1"]⟩] _ (by decide)⟩

/-- C10: opening a file whose basename is already registered in the source
dictionary is a fatal error raised before any line of the file is examined
— the error is the same whatever the file contents — and every
successfully parsed file ends up registered under its basename, so a
parse (and with it the include recursion, which must pass through
parse_source_file) can never process the same basename twice. -/
theorem c10_reparse_guard :
    (∀ (fs : Files) (st : AsmState) (f : String) (ls : List String),
        fs.lookup f = some ls →
        (st.sources.lookup (basename f)).isSome = true →
        parse_source_file fs st f =
          .error (.fatal ("ERROR: " ++ basename f ++ " already parsed?!") (-1)))
    ∧ (∀ (fs : Files) (st : AsmState) (f : String) (st' : AsmState),
        parse_source_file fs st f = .ok st' →
        (st'.sources.lookup (basename f)).isSome = true) := by
  constructor
  · intro fs st f ls hf hb
    unfold parse_source_file
    rw [hf]
    simp [hb]
  · intro fs st f st' h
    unfold parse_source_file at h
    repeat' split at h
    all_goals try simp_all
    subst h
    exact ⟨st.cur_file, by simp⟩

/-- C10 witness: with b.s already parsed (under a different directory), a
second file dir/b.s of arbitrary content is rejected up front, and a fresh
parse of an empty file registers its basename. -/
theorem c10_reparse_guard_witness :
    parse_source_file [("dir/b.s", ["mov r0, r1"])]
        ⟨[], [("b.s", "main.s"), ("main.s", "None")], 4, "main.s", []⟩ "dir/b.s" =
      .error (.fatal ("ERROR: " ++ basename "dir/b.s" ++ " already parsed?!") (-1))
    ∧ ((AsmState.sources
          ⟨[], [("c.s", "main.s"), ("main.s", "None")], 4, "c.s", []⟩).lookup
        (basename "sub/c.s")).isSome = true := by
  constructor
  · exact c10_reparse_guard.1 [("dir/b.s", ["mov r0, r1"])]
      ⟨[], [("b.s", "main.s"), ("main.s", "None")], 4, "main.s", []⟩ "dir/b.s"
      ["mov r0, r1"] (by decide) (by decide)
  · exact c10_reparse_guard.2 [("sub/c.s", [])]
      ⟨[], [("main.s", "None")], 4, "main.s", []⟩ "sub/c.s"
      ⟨[], [("c.s", "main.s"), ("main.s", "None")], 4, "c.s", []⟩ (by decide)
